import Mathlib

/-!
Verification of the room-booking server (src/server.ts).

The server stores rooms, bookings and users in SQLite tables and exposes
JSON handlers over them.  We embed the tables as Lean lists, the handler
bodies as pure functions from a database state and a request body to a
result and a new state, and the SQLite BINARY text comparison (memcmp over
UTF-8 bytes, which coincides with lexicographic comparison of code points)
as an executable order on strings.
-/

namespace BookRoom

/-! ## SQLite BINARY text order

Booking times are TEXT columns, compared by the SQL operators with the
default BINARY collation: byte-wise lexicographic comparison, which for
valid UTF-8 equals code-point-wise lexicographic comparison.
-/

/-- Lexicographic strict order on lists of characters, by code point. -/
def charListLt : List Char → List Char → Bool
  | _, [] => false
  | [], _ :: _ => true
  | a :: as, b :: bs =>
    if a.toNat < b.toNat then true
    else if b.toNat < a.toNat then false
    else charListLt as bs

/-- The SQL comparison a < b on TEXT values (BINARY collation). -/
def strLt (a b : String) : Bool := charListLt a.data b.data

/-- The SQL comparison a <= b on TEXT values (BINARY collation). -/
def strLe (a b : String) : Bool := !(strLt b a)

/-! ## Data model

The SQLite tables from the schema in src/server.ts (the columns the
handlers read or write; created_at and the ads/settings tables are not
needed by any verified property).  JSON values are modelled as strings
and naturals; nullable columns that every modelled code path writes with
a concrete value are kept concrete.
-/

/-- A row of the rooms table. -/
structure Room where
  id : Nat
  name : String
  capacity : Nat
  description : String
  image_url : String
  equipment : String
deriving Repr, DecidableEq

/-- A row of the bookings table. -/
structure Booking where
  id : Nat
  room_id : Nat
  user_name : String
  title : String
  start_time : String
  end_time : String
  attendees : Nat
  applicant : String
  whatsapp : String
  description : String
  purpose : String
  status : String
deriving Repr, DecidableEq

/-- A row of the users table. -/
structure User where
  id : Nat
  username : String
  password : String
  role : String
deriving Repr, DecidableEq

/-- The database state: the three tables plus the AUTOINCREMENT counters. -/
structure DB where
  rooms : List Room
  bookings : List Booking
  users : List User
  nextBookingId : Nat
  nextUserId : Nat
deriving Repr, DecidableEq

/-- The default of the status column of the bookings table
(the schema declares status TEXT DEFAULT pending). -/
def defaultBookingStatus : String := "pending"

/-! ## Request bodies -/

/-- JSON body of POST /api/bookings: every field the handler destructures
may be absent.  A status field may be supplied by the client; the create
handler never reads it. -/
structure BookingBody where
  room_id : Option Nat
  user_name : Option String
  title : Option String
  start_time : Option String
  end_time : Option String
  attendees : Option Nat
  applicant : Option String
  whatsapp : Option String
  description : Option String
  status : Option String
deriving Repr, DecidableEq

/-- JavaScript truthiness of an optional number (undefined and 0 are falsy). -/
def truthyNat : Option Nat → Bool
  | none => false
  | some n => n != 0

/-- JavaScript truthiness of an optional string (undefined and the empty
string are falsy). -/
def truthyStr : Option String → Bool
  | none => false
  | some s => s != ""

/-- The presence check of POST /api/bookings:
if (!room_id || !user_name || !start_time || !end_time || !title). -/
def presentBooking (body : BookingBody) : Bool :=
  truthyNat body.room_id && truthyStr body.user_name &&
    truthyStr body.start_time && truthyStr body.end_time && truthyStr body.title

/-- JSON body of PUT /api/bookings/:id, with every bound column given a
concrete value (the handler performs no presence check and binds the
fields as they are). -/
structure UpdateBody where
  room_id : Nat
  user_name : String
  title : String
  start_time : String
  end_time : String
  attendees : Nat
  applicant : String
  whatsapp : String
  description : String
  status : String
deriving Repr, DecidableEq

/-! ## The booking conflict queries -/

/-- The conflict query of POST /api/bookings: count of rows with the same
room_id, status distinct from rejected, and start_time < new end AND
end_time > new start. -/
def conflictCount (bs : List Booking) (rid : Nat) (s e : String) : Nat :=
  (bs.filter (fun b =>
    b.room_id == rid && b.status != "rejected" &&
      (strLt b.start_time e && strLt s b.end_time))).length

/-- The conflict query of PUT /api/bookings/:id: as conflictCount but
additionally excluding the row whose id equals the id of the updated booking. -/
def conflictCountExcl (bs : List Booking) (selfId : Nat) (rid : Nat) (s e : String) : Nat :=
  (bs.filter (fun b =>
    b.room_id == rid && b.id != selfId && b.status != "rejected" &&
      (strLt b.start_time e && strLt s b.end_time))).length

/-! ## Handlers -/

/-- Outcome of POST /api/bookings. -/
inductive CreateBookingResult where
  | badRequest
  | conflict
  | created (id : Nat) (status : String)
deriving Repr, DecidableEq

/-- The handler of POST /api/bookings: presence check (400), conflict
check (409), then INSERT without a status column, so the column default
applies; the response reports the new rowid and the literal status
pending. -/
def createBooking (db : DB) (body : BookingBody) : CreateBookingResult × DB :=
  if !(presentBooking body) then
    (CreateBookingResult.badRequest, db)
  else
    let rid := body.room_id.getD 0
    let s := body.start_time.getD ""
    let e := body.end_time.getD ""
    let ti := body.title.getD ""
    if conflictCount db.bookings rid s e > 0 then
      (CreateBookingResult.conflict, db)
    else
      let nb : Booking :=
        { id := db.nextBookingId
          room_id := rid
          user_name := body.user_name.getD ""
          title := ti
          start_time := s
          end_time := e
          attendees := body.attendees.getD 0
          applicant := body.applicant.getD ""
          whatsapp := body.whatsapp.getD ""
          description := body.description.getD ""
          purpose := ti
          status := defaultBookingStatus }
      (CreateBookingResult.created db.nextBookingId "pending",
        { db with bookings := db.bookings ++ [nb], nextBookingId := db.nextBookingId + 1 })

/-- Outcome of PUT /api/bookings/:id. -/
inductive UpdateBookingResult where
  | conflict
  | notFound
  | success
deriving Repr, DecidableEq

/-- The handler of PUT /api/bookings/:id: conflict check excluding the
id of the booking itself (409), then UPDATE of every listed column; 404
when the UPDATE changes no row. -/
def updateBooking (db : DB) (id : Nat) (ub : UpdateBody) : UpdateBookingResult × DB :=
  if conflictCountExcl db.bookings id ub.room_id ub.start_time ub.end_time > 0 then
    (UpdateBookingResult.conflict, db)
  else
    let changes := (db.bookings.filter (fun b => b.id == id)).length
    if changes == 0 then
      (UpdateBookingResult.notFound, db)
    else
      (UpdateBookingResult.success,
        { db with bookings := db.bookings.map (fun b =>
            if b.id == id then
              { b with
                room_id := ub.room_id
                user_name := ub.user_name
                title := ub.title
                start_time := ub.start_time
                end_time := ub.end_time
                attendees := ub.attendees
                applicant := ub.applicant
                whatsapp := ub.whatsapp
                description := ub.description
                status := ub.status }
            else b) })

/-- Outcome of PATCH /api/bookings/:id/status. -/
inductive PatchStatusResult where
  | badRequest
  | notFound
  | success
deriving Repr, DecidableEq

/-- The handler of PATCH /api/bookings/:id/status: 400 unless the status
is approved, rejected or pending, then UPDATE of the status column only;
404 when the UPDATE changes no row.  No conflict query runs here. -/
def patchStatus (db : DB) (id : Nat) (status : String) : PatchStatusResult × DB :=
  if !(["approved", "rejected", "pending"].contains status) then
    (PatchStatusResult.badRequest, db)
  else
    let changes := (db.bookings.filter (fun b => b.id == id)).length
    if changes == 0 then
      (PatchStatusResult.notFound, db)
    else
      (PatchStatusResult.success,
        { db with bookings := db.bookings.map (fun b =>
            if b.id == id then { b with status := status } else b) })

/-- Outcome of DELETE /api/rooms/:id. -/
inductive DeleteRoomResult where
  | badRequest
  | success
deriving Repr, DecidableEq

/-- The handler of DELETE /api/rooms/:id: 400 when any booking row
references the room, otherwise DELETE of the room row. -/
def deleteRoom (db : DB) (id : Nat) : DeleteRoomResult × DB :=
  let cnt := (db.bookings.filter (fun b => b.room_id == id)).length
  if cnt > 0 then
    (DeleteRoomResult.badRequest, db)
  else
    (DeleteRoomResult.success,
      { db with rooms := db.rooms.filter (fun r => !(r.id == id)) })

/-- Outcome of POST /api/users. -/
inductive CreateUserResult where
  | badRequest
  | conflict
  | created (id : Nat)
deriving Repr, DecidableEq

/-- The handler of POST /api/users: presence check (400), then INSERT;
the UNIQUE constraint on username turns a duplicate into a 409 with no
row inserted. -/
def createUser (db : DB) (username password role : String) : CreateUserResult × DB :=
  if username == "" || password == "" || role == "" then
    (CreateUserResult.badRequest, db)
  else if db.users.any (fun u => u.username == username) then
    (CreateUserResult.conflict, db)
  else
    (CreateUserResult.created db.nextUserId,
      { db with
          users := db.users ++
            [{ id := db.nextUserId, username := username, password := password, role := role }]
          nextUserId := db.nextUserId + 1 })

/-- Outcome of DELETE /api/users/:id. -/
inductive DeleteUserResult where
  | forbidden
  | success
deriving Repr, DecidableEq

/-- The handler of DELETE /api/users/:id: 403 when the username of the
looked-up user is admin or superadmin, otherwise DELETE of the row (also
a success when no such user exists). -/
def deleteUser (db : DB) (id : Nat) : DeleteUserResult × DB :=
  let user := db.users.find? (fun u => u.id == id)
  if (user.map (fun u => u.username == "admin" || u.username == "superadmin")).getD false then
    (DeleteUserResult.forbidden, db)
  else
    (DeleteUserResult.success,
      { db with users := db.users.filter (fun u => !(u.id == id)) })

/-- The ascending-by-start order used by ORDER BY b.start_time ASC. -/
def byStart (a b : Booking) : Prop := strLe a.start_time b.start_time = true

instance : DecidableRel byStart := fun a b => by
  unfold byStart; infer_instance

/-- The handler of GET /api/bookings/active: bookings JOIN rooms on
room_id, keeping rows with status approved, end_time at or after now and
start_time at or before the upper bound (SQLite computes that bound as
now plus seven days; it is passed in here), ordered ascending by
start_time. -/
def activeBookings (db : DB) (now plus7 : String) : List Booking :=
  List.insertionSort byStart
    ((db.bookings.flatMap (fun b =>
        (db.rooms.filter (fun r => r.id == b.room_id)).map (fun _ => b))).filter
      (fun b => b.status == "approved" && strLe now b.end_time && strLe b.start_time plus7))

/-! ## Concrete fixtures used by the witness theorems -/

/-- A sample room with id 1. -/
def roomA : Room :=
  { id := 1, name := "Conference Room A", capacity := 12,
    description := "", image_url := "", equipment := "" }

/-- A second sample room with id 2 and no bookings. -/
def roomB : Room :=
  { id := 2, name := "Meeting Room B", capacity := 6,
    description := "", image_url := "", equipment := "" }

/-- An approved booking of room 1 from 10:00 to 11:00. -/
def bkApproved : Booking :=
  { id := 1, room_id := 1, user_name := "alice", title := "standup",
    start_time := "10:00", end_time := "11:00", attendees := 5,
    applicant := "", whatsapp := "", description := "",
    purpose := "standup", status := "approved" }

/-- A pending booking of room 1 from 12:00 to 13:00. -/
def bkPendingLater : Booking :=
  { id := 2, room_id := 1, user_name := "bob", title := "sync",
    start_time := "12:00", end_time := "13:00", attendees := 2,
    applicant := "", whatsapp := "", description := "",
    purpose := "sync", status := "pending" }

/-- A rejected booking of room 1 from 10:00 to 11:00, overlapping
bkApproved. -/
def bkRejectedSame : Booking :=
  { id := 2, room_id := 1, user_name := "carol", title := "review",
    start_time := "10:00", end_time := "11:00", attendees := 3,
    applicant := "", whatsapp := "", description := "",
    purpose := "review", status := "rejected" }

/-- An approved booking whose room_id 7 references no room row. -/
def bkDangling : Booking :=
  { id := 1, room_id := 7, user_name := "dave", title := "ghost",
    start_time := "b", end_time := "c", attendees := 1,
    applicant := "", whatsapp := "", description := "",
    purpose := "ghost", status := "approved" }

/-- Database with room 1 and its single approved booking. -/
def dbOne : DB :=
  { rooms := [roomA], bookings := [bkApproved], users := [],
    nextBookingId := 2, nextUserId := 1 }

/-- Database with rooms 1 and 2, an approved and a later pending booking. -/
def dbTwo : DB :=
  { rooms := [roomA, roomB], bookings := [bkApproved, bkPendingLater], users := [],
    nextBookingId := 3, nextUserId := 1 }

/-- Database with room 1, an approved booking and an overlapping rejected
one. -/
def dbRej : DB :=
  { rooms := [roomA], bookings := [bkApproved, bkRejectedSame], users := [],
    nextBookingId := 3, nextUserId := 1 }

/-- Database whose only booking references a missing room. -/
def dbDangling : DB :=
  { rooms := [], bookings := [bkDangling], users := [],
    nextBookingId := 2, nextUserId := 1 }

/-- An empty database. -/
def dbEmpty : DB :=
  { rooms := [], bookings := [], users := [], nextBookingId := 1, nextUserId := 1 }

/-- Database with the two protected users and a super_admin named boss. -/
def dbUsers : DB :=
  { rooms := [], bookings := [], users :=
      [{ id := 1, username := "admin", password := "admin123", role := "admin" },
       { id := 2, username := "superadmin", password := "super123", role := "user" },
       { id := 3, username := "boss", password := "boss123", role := "super_admin" }],
    nextBookingId := 1, nextUserId := 4 }

/-- A create body for room 1, 10:30 to 11:30, overlapping bkApproved. -/
def bodyOverlap : BookingBody :=
  { room_id := some 1, user_name := some "eve", title := some "clash",
    start_time := some "10:30", end_time := some "11:30", attendees := none,
    applicant := none, whatsapp := none, description := none, status := none }

/-- A create body whose start 11:00 is not before its end 10:00. -/
def bodyBackwards : BookingBody :=
  { room_id := some 1, user_name := some "fred", title := some "odd",
    start_time := some "11:00", end_time := some "10:00", attendees := none,
    applicant := none, whatsapp := none, description := none, status := none }

/-- A create body that supplies status approved; the handler must ignore
it. -/
def bodyStatusTry : BookingBody :=
  { room_id := some 1, user_name := some "gail", title := some "early",
    start_time := some "09:00", end_time := some "09:30", attendees := some 4,
    applicant := some "ops", whatsapp := some "08123", description := some "n",
    status := some "approved" }

/-- An update body for room 1, 10:30 to 11:30. -/
def ubOverlap : UpdateBody :=
  { room_id := 1, user_name := "alice", title := "standup",
    start_time := "10:30", end_time := "11:30", attendees := 5,
    applicant := "", whatsapp := "", description := "", status := "approved" }

/-! ## Properties of the BINARY text order -/

theorem charListLt_asymm : ∀ x y, charListLt x y = true → charListLt y x = false := by
  intro x
  induction x with
  | nil => intro y _; cases y <;> simp [charListLt]
  | cons a as ih =>
    intro y h
    cases y with
    | nil => simp [charListLt] at h
    | cons b bs =>
      simp only [charListLt] at h ⊢
      by_cases h1 : a.toNat < b.toNat
      · simp [h1, Nat.not_lt.mpr (Nat.le_of_lt h1), Nat.lt_irrefl, Nat.not_lt_of_lt h1]
      · by_cases h2 : b.toNat < a.toNat
        · simp [h1, h2] at h
        · simp [h1, h2] at h ⊢
          exact ih bs h

theorem char_eq_of_toNat_eq {a b : Char} (h : a.toNat = b.toNat) : a = b := by
  apply Char.ext
  exact UInt32.toNat.inj h

theorem charListLt_conn : ∀ x y, charListLt x y = false → charListLt y x = false → x = y := by
  intro x
  induction x with
  | nil => intro y h _; cases y <;> simp_all [charListLt]
  | cons a as ih =>
    intro y h1 h2
    cases y with
    | nil => simp [charListLt] at h2
    | cons b bs =>
      simp only [charListLt] at h1 h2
      by_cases hab : a.toNat < b.toNat
      · simp [hab] at h1
      · by_cases hba : b.toNat < a.toNat
        · simp [hba, hab] at h2
        · simp [hab, hba] at h1 h2
          have hc : a = b :=
            char_eq_of_toNat_eq (Nat.le_antisymm (Nat.not_lt.mp hba) (Nat.not_lt.mp hab))
          rw [hc, ih bs h1 h2]

theorem charListLt_trans : ∀ x y z, charListLt x y = true → charListLt y z = true →
    charListLt x z = true := by
  intro x
  induction x with
  | nil =>
    intro y z h1 h2
    cases y with
    | nil => simp [charListLt] at h1
    | cons b bs =>
      cases z with
      | nil => simp [charListLt] at h2
      | cons c cs => simp [charListLt]
  | cons a as ih =>
    intro y z h1 h2
    cases y with
    | nil => simp [charListLt] at h1
    | cons b bs =>
      cases z with
      | nil => simp [charListLt] at h2
      | cons c cs =>
        simp only [charListLt] at h1 h2 ⊢
        by_cases hab : a.toNat < b.toNat
        · by_cases hbc : b.toNat < c.toNat
          · simp [Nat.lt_trans hab hbc]
          · by_cases hcb : c.toNat < b.toNat
            · simp [hbc, hcb] at h2
            · have hbceq : b.toNat = c.toNat :=
                Nat.le_antisymm (Nat.not_lt.mp hcb) (Nat.not_lt.mp hbc)
              simp [hbceq ▸ hab]
        · by_cases hba : b.toNat < a.toNat
          · simp [hab, hba] at h1
          · have hab' : a.toNat = b.toNat :=
              Nat.le_antisymm (Nat.not_lt.mp hba) (Nat.not_lt.mp hab)
            simp [hab, hba] at h1
            by_cases hbc : b.toNat < c.toNat
            · simp [hab' ▸ hbc]
            · by_cases hcb : c.toNat < b.toNat
              · simp [hbc, hcb] at h2
              · simp [hbc, hcb] at h2
                have hac : ¬ a.toNat < c.toNat := by omega
                have hca : ¬ c.toNat < a.toNat := by omega
                simp [hac, hca]
                exact ih bs cs h1 h2

theorem strLe_total (a b : String) : strLe a b = true ∨ strLe b a = true := by
  unfold strLe
  by_cases h : strLt b a = true
  · right
    unfold strLt at h ⊢
    simp [charListLt_asymm _ _ h]
  · left
    simp [Bool.not_eq_true] at h
    simp [h]

theorem strLe_trans {a b c : String} (h1 : strLe a b = true) (h2 : strLe b c = true) :
    strLe a c = true := by
  unfold strLe strLt at h1 h2 ⊢
  simp only [Bool.not_eq_true'] at h1 h2 ⊢
  by_cases hca : charListLt c.data a.data = true
  · by_cases hab : charListLt a.data b.data = true
    · have hcb := charListLt_trans _ _ _ hca hab
      rw [hcb] at h2; cases h2
    · simp only [Bool.not_eq_true] at hab
      have hd : a.data = b.data := charListLt_conn _ _ hab h1
      rw [← hd] at h2
      rw [hca] at h2; cases h2
  · simpa [Bool.not_eq_true] using hca

/-! ## The conflict queries, propositionally -/

theorem conflictCount_pos_iff (bs : List Booking) (rid : Nat) (s e : String) :
    0 < conflictCount bs rid s e ↔
      ∃ b ∈ bs, b.room_id = rid ∧ b.status ≠ "rejected" ∧
        strLt b.start_time e = true ∧ strLt s b.end_time = true := by
  simp [conflictCount, List.length_pos_iff_exists_mem, List.mem_filter, and_assoc]

theorem conflictCountExcl_pos_iff (bs : List Booking) (selfId rid : Nat) (s e : String) :
    0 < conflictCountExcl bs selfId rid s e ↔
      ∃ b ∈ bs, b.room_id = rid ∧ b.id ≠ selfId ∧ b.status ≠ "rejected" ∧
        strLt b.start_time e = true ∧ strLt s b.end_time = true := by
  simp [conflictCountExcl, List.length_pos_iff_exists_mem, List.mem_filter, and_assoc]

theorem filter_id_length_pos {bs : List Booking} {id : Nat} (b : Booking)
    (hb : b ∈ bs) (hid : b.id = id) :
    (bs.filter (fun x => x.id == id)).length ≠ 0 :=
  Nat.pos_iff_ne_zero.mp
    (List.length_pos_iff_exists_mem.mpr ⟨b, List.mem_filter.mpr ⟨hb, by simp [hid]⟩⟩)

/-! ## Claims -/

/-- C1: booking create and full update respond 409 exactly when a stored
booking for the same room (excluding, on update, the row with the id of
the updated booking) with status distinct from rejected satisfies
existing.start < new.end and existing.end > new.start; touching
intervals and rejected rows never conflict, both being direct
consequences of this characterization. -/
theorem create_update_conflict_409_iff (db : DB) (body : BookingBody) (id : Nat)
    (ub : UpdateBody) (h : presentBooking body = true) :
    ((createBooking db body).1 = CreateBookingResult.conflict ↔
      ∃ b ∈ db.bookings, b.room_id = body.room_id.getD 0 ∧ b.status ≠ "rejected" ∧
        strLt b.start_time (body.end_time.getD "") = true ∧
        strLt (body.start_time.getD "") b.end_time = true) ∧
    ((updateBooking db id ub).1 = UpdateBookingResult.conflict ↔
      ∃ b ∈ db.bookings, b.room_id = ub.room_id ∧ b.id ≠ id ∧ b.status ≠ "rejected" ∧
        strLt b.start_time ub.end_time = true ∧ strLt ub.start_time b.end_time = true) := by
  constructor
  · rw [← conflictCount_pos_iff]
    unfold createBooking
    rw [h]
    by_cases hc : conflictCount db.bookings (body.room_id.getD 0) (body.start_time.getD "")
        (body.end_time.getD "") > 0
    · simp [hc]
    · simp [hc]
  · rw [← conflictCountExcl_pos_iff]
    unfold updateBooking
    by_cases hc : conflictCountExcl db.bookings id ub.room_id ub.start_time ub.end_time > 0
    · simp [hc]
    · simp only [hc, if_false]
      by_cases hz : ((db.bookings.filter (fun b => b.id == id)).length == 0) = true
      · simp [hz, hc]
      · simp [hz, hc]

/-- C1 witness: in a database holding an approved 10:00 to 11:00 booking
of room 1, creating 10:30 to 11:30 on room 1 is a 409, creating the
touching slot 11:00 to 12:00 is not a conflict, and a full update of an
unrelated id to 10:30 to 11:30 is a 409. -/
theorem create_update_conflict_409_iff_witness :
    (createBooking dbOne bodyOverlap).1 = CreateBookingResult.conflict ∧
    (updateBooking dbOne 9 ubOverlap).1 = UpdateBookingResult.conflict := by
  have h := create_update_conflict_409_iff dbOne bodyOverlap 9 ubOverlap (by decide)
  exact ⟨h.1.mpr (by decide), h.2.mpr (by decide)⟩

/-- C2: a full update whose requested interval overlaps, among the
non-rejected bookings of the requested room, only the row with the id
being updated, does not answer 409 and succeeds. -/
theorem update_self_exclusion (db : DB) (id : Nat) (ub : UpdateBody)
    (hex : ∃ b ∈ db.bookings, b.id = id)
    (hself : ∀ b ∈ db.bookings,
      b.room_id = ub.room_id → b.status ≠ "rejected" →
      strLt b.start_time ub.end_time = true → strLt ub.start_time b.end_time = true →
      b.id = id) :
    (updateBooking db id ub).1 = UpdateBookingResult.success := by
  have hnc : ¬ 0 < conflictCountExcl db.bookings id ub.room_id ub.start_time ub.end_time := by
    rw [conflictCountExcl_pos_iff]
    rintro ⟨b, hb, hroom, hid, hstat, h1, h2⟩
    exact hid (hself b hb hroom hstat h1 h2)
  obtain ⟨b, hb, hbid⟩ := hex
  have hne := filter_id_length_pos b hb hbid
  simp [updateBooking, hnc, hne]

/-- C2 witness: updating the approved booking with id 1 to the interval
10:30 to 11:30, which overlaps only its own stored 10:00 to 11:00 slot,
succeeds. -/
theorem update_self_exclusion_witness :
    (updateBooking dbTwo 1 ubOverlap).1 = UpdateBookingResult.success :=
  update_self_exclusion dbTwo 1 ubOverlap (by decide) (by decide)

/-- C3: the status patch performs no conflict query: for every database,
every stored booking and every status among approved, rejected and
pending, the patch succeeds and the booking takes the new status — in
particular a rejected booking can be set back to pending or approved
even when its interval overlaps a non-rejected booking of the same room,
since no hypothesis restricts the stored intervals. -/
theorem patch_status_no_conflict_check (db : DB) (b : Booking) (s : String)
    (hb : b ∈ db.bookings)
    (hs : s = "approved" ∨ s = "rejected" ∨ s = "pending") :
    (patchStatus db b.id s).1 = PatchStatusResult.success ∧
    { b with status := s } ∈ (patchStatus db b.id s).2.bookings := by
  have hcontains : (["approved", "rejected", "pending"].contains s) = true := by
    rcases hs with h | h | h <;> simp [h]
  have hne := filter_id_length_pos b hb rfl
  constructor
  · simp only [patchStatus, hcontains, Bool.not_true, Bool.false_eq_true, if_false]
    rw [if_neg (by simpa using hne)]
  · simp only [patchStatus, hcontains, Bool.not_true, Bool.false_eq_true, if_false]
    rw [if_neg (by simpa using hne)]
    exact List.mem_map.mpr ⟨b, hb, by simp⟩

/-- C3 witness: the rejected booking with id 2, whose 10:00 to 11:00
interval overlaps the approved booking of the same room, is patched to
approved with success. -/
theorem patch_status_no_conflict_check_witness :
    (patchStatus dbRej 2 "approved").1 = PatchStatusResult.success ∧
    { bkRejectedSame with status := "approved" } ∈ (patchStatus dbRej 2 "approved").2.bookings :=
  patch_status_no_conflict_check dbRej bkRejectedSame "approved" (by decide) (Or.inl rfl)

/-- C4: booking creation answers 400 exactly when one of room_id,
user_name, start_time, end_time, title is absent (JavaScript-falsy), and
then inserts nothing; when all five are present and no conflict exists
the booking is created with no further validation — no hypothesis
relates start_time and end_time, so a start at or after the end is never
rejected for that reason. -/
theorem create_validation (db : DB) (body : BookingBody) :
    (presentBooking body = false →
      createBooking db body = (CreateBookingResult.badRequest, db)) ∧
    (presentBooking body = true →
      conflictCount db.bookings (body.room_id.getD 0) (body.start_time.getD "")
          (body.end_time.getD "") = 0 →
      (createBooking db body).1 = CreateBookingResult.created db.nextBookingId "pending" ∧
      ∃ nb, (createBooking db body).2.bookings = db.bookings ++ [nb]) := by
  constructor
  · intro h
    simp [createBooking, h]
  · intro h hnc
    simp [createBooking, h, hnc]

/-- C4 witness: a body whose start 11:00 is after its end 10:00 is
accepted on an empty database, and removing its title yields a 400 with
the database unchanged. -/
theorem create_validation_witness :
    (createBooking dbEmpty bodyBackwards).1 = CreateBookingResult.created 1 "pending" ∧
    createBooking dbEmpty { bodyBackwards with title := none } =
      (CreateBookingResult.badRequest, dbEmpty) := by
  have h := create_validation dbEmpty bodyBackwards
  have h400 := create_validation dbEmpty { bodyBackwards with title := none }
  exact ⟨(h.2 (by decide) (by decide)).1, h400.1 (by decide)⟩

/-- C5: deleting a room answers 400 and leaves the database unchanged
exactly when at least one booking of any status references the room;
with no referencing booking the deletion succeeds and removes precisely
the rows with that room id. -/
theorem delete_room_blocked_iff (db : DB) (id : Nat) :
    ((∃ b ∈ db.bookings, b.room_id = id) →
      deleteRoom db id = (DeleteRoomResult.badRequest, db)) ∧
    ((∀ b ∈ db.bookings, b.room_id ≠ id) →
      (deleteRoom db id).1 = DeleteRoomResult.success ∧
      ∀ r : Room, r ∈ (deleteRoom db id).2.rooms ↔ r ∈ db.rooms ∧ r.id ≠ id) := by
  constructor
  · rintro ⟨b, hb, hrid⟩
    have hpos : 0 < (db.bookings.filter (fun b => b.room_id == id)).length :=
      List.length_pos_iff_exists_mem.mpr ⟨b, List.mem_filter.mpr ⟨hb, by simp [hrid]⟩⟩
    simp [deleteRoom, hpos]
  · intro hnone
    have hnil : db.bookings.filter (fun b => b.room_id == id) = [] := by
      rw [List.filter_eq_nil_iff]
      intro b hb
      simp [hnone b hb]
    refine ⟨by simp [deleteRoom, hnil], fun r => ?_⟩
    simp [deleteRoom, hnil, List.mem_filter]

/-- C5 witness: room 1 cannot be deleted while a rejected booking still
references it, and room 2, referenced by no booking, is deleted. -/
theorem delete_room_blocked_iff_witness :
    deleteRoom dbRej 1 = (DeleteRoomResult.badRequest, dbRej) ∧
    (deleteRoom dbTwo 2).1 = DeleteRoomResult.success ∧
    roomB ∉ (deleteRoom dbTwo 2).2.rooms := by
  have hblock := (delete_room_blocked_iff dbRej 1).1 (by decide)
  have hok := (delete_room_blocked_iff dbTwo 2).2 (by decide)
  refine ⟨hblock, hok.1, fun hmem => ?_⟩
  have := (hok.2 roomB).mp hmem
  exact this.2 (by decide)

/-- C6: with username, password and role present, user creation answers
409 and inserts no row when a user with the same username already
exists, and otherwise inserts exactly one new row and returns its id. -/
theorem create_user_duplicate_409 (db : DB) (u p r : String)
    (hu : u ≠ "") (hp : p ≠ "") (hr : r ≠ "") :
    ((∃ v ∈ db.users, v.username = u) →
      createUser db u p r = (CreateUserResult.conflict, db)) ∧
    ((∀ v ∈ db.users, v.username ≠ u) →
      (createUser db u p r).1 = CreateUserResult.created db.nextUserId ∧
      (createUser db u p r).2.users =
        db.users ++ [{ id := db.nextUserId, username := u, password := p, role := r }]) := by
  constructor
  · rintro ⟨v, hv, hvu⟩
    have hdup : db.users.any (fun w => w.username == u) = true :=
      List.any_eq_true.mpr ⟨v, hv, by simp [hvu]⟩
    simp [createUser, hu, hp, hr, hdup]
  · intro hnone
    have hdup : db.users.any (fun w => w.username == u) = false := by
      rw [List.any_eq_false]
      intro v hv
      simp [hnone v hv]
    constructor <;> simp [createUser, hu, hp, hr, hdup]

/-- C6 witness: creating a second admin user is a 409 leaving the user
table unchanged, and creating the fresh username carol inserts a row
with the next id 4. -/
theorem create_user_duplicate_409_witness :
    createUser dbUsers "admin" "pw" "user" = (CreateUserResult.conflict, dbUsers) ∧
    (createUser dbUsers "carol" "pw" "user").1 = CreateUserResult.created 4 := by
  have hdup := (create_user_duplicate_409 dbUsers "admin" "pw" "user"
    (by decide) (by decide) (by decide)).1 (by decide)
  have hnew := (create_user_duplicate_409 dbUsers "carol" "pw" "user"
    (by decide) (by decide) (by decide)).2 (by decide)
  exact ⟨hdup, hnew.1⟩

/-- C7: when the user row looked up by id carries the exact username
admin or superadmin the deletion answers 403 and removes nothing,
whatever the role of that row; for any other username the row is
deleted, again whatever its role. -/
theorem delete_user_protected_names (db : DB) (id : Nat) (u : User)
    (hfind : db.users.find? (fun v => v.id == id) = some u) :
    ((u.username = "admin" ∨ u.username = "superadmin") →
      deleteUser db id = (DeleteUserResult.forbidden, db)) ∧
    (u.username ≠ "admin" → u.username ≠ "superadmin" →
      (deleteUser db id).1 = DeleteUserResult.success ∧
      ∀ v : User, v ∈ (deleteUser db id).2.users ↔ v ∈ db.users ∧ v.id ≠ id) := by
  constructor
  · intro hname
    rcases hname with h | h <;> simp [deleteUser, hfind, h]
  · intro h1 h2
    refine ⟨by simp [deleteUser, hfind, h1, h2], fun v => ?_⟩
    simp [deleteUser, hfind, h1, h2, List.mem_filter]

/-- C7 witness: the user named superadmin, here holding the ordinary
role user, cannot be deleted, while the user named boss holding the
super_admin role is deleted. -/
theorem delete_user_protected_names_witness :
    deleteUser dbUsers 2 = (DeleteUserResult.forbidden, dbUsers) ∧
    (deleteUser dbUsers 3).1 = DeleteUserResult.success := by
  have hsup := (delete_user_protected_names dbUsers 2
    { id := 2, username := "superadmin", password := "super123", role := "user" }
    (by decide)).1 (Or.inr rfl)
  have hboss := (delete_user_protected_names dbUsers 3
    { id := 3, username := "boss", password := "boss123", role := "super_admin" }
    (by decide)).2 (by decide) (by decide)
  exact ⟨hsup, hboss.1⟩

/-- C8 counterexample: the endpoint joins bookings with rooms, so an
approved booking inside the window whose room_id references no room row
is not returned, refuting the claim that exactly the approved bookings
in the window are returned. -/
theorem active_bookings_counterexample :
    bkDangling ∈ dbDangling.bookings ∧ bkDangling.status = "approved" ∧
    strLe "a" bkDangling.end_time = true ∧ strLe bkDangling.start_time "z" = true ∧
    bkDangling ∉ activeBookings dbDangling "a" "z" := by
  decide

/-- C8 (amended): the active listing returns exactly the bookings that
reference an existing room, have status approved, end at or after now
and start at or before the upper bound, and the returned list is
ascending in start_time. -/
theorem active_bookings_characterization (db : DB) (now plus7 : String) :
    (∀ b : Booking, b ∈ activeBookings db now plus7 ↔
      (b ∈ db.bookings ∧ (∃ r ∈ db.rooms, r.id = b.room_id) ∧ b.status = "approved" ∧
        strLe now b.end_time = true ∧ strLe b.start_time plus7 = true)) ∧
    List.Pairwise byStart (activeBookings db now plus7) := by
  constructor
  · intro b
    unfold activeBookings
    rw [(List.perm_insertionSort byStart _).mem_iff]
    simp only [List.mem_filter, List.mem_flatMap, List.mem_map, Bool.and_eq_true,
      beq_iff_eq]
    constructor
    · rintro ⟨⟨a, ha, y, ⟨hymem, hyid⟩, rfl⟩, ⟨hstat, hnow⟩, hp7⟩
      exact ⟨ha, ⟨y, hymem, hyid⟩, hstat, hnow, hp7⟩
    · rintro ⟨hb, ⟨r, hrmem, hrid⟩, hstat, hnow, hp7⟩
      exact ⟨⟨b, hb, r, ⟨hrmem, hrid⟩, rfl⟩, ⟨hstat, hnow⟩, hp7⟩
  · haveI : IsTotal Booking byStart := ⟨fun a b => strLe_total a.start_time b.start_time⟩
    haveI : IsTrans Booking byStart := ⟨fun _ _ _ h1 h2 => strLe_trans h1 h2⟩
    exact List.sorted_insertionSort byStart _

/-- C8 witness: the approved 10:00 to 11:00 booking of the existing room
1 is listed for now 0 and upper bound z. -/
theorem active_bookings_characterization_witness :
    bkApproved ∈ activeBookings dbOne "0" "z" :=
  ((active_bookings_characterization dbOne "0" "z").1 bkApproved).mpr (by decide)

/-- C9: a successful creation stores the booking with the status column
default pending and reports status pending, and the handler result is
entirely independent of any status value supplied in the request body. -/
theorem create_status_always_pending (db : DB) (body : BookingBody)
    (h : presentBooking body = true)
    (hnc : conflictCount db.bookings (body.room_id.getD 0) (body.start_time.getD "")
        (body.end_time.getD "") = 0) :
    (createBooking db body).1 = CreateBookingResult.created db.nextBookingId "pending" ∧
    (∃ nb, (createBooking db body).2.bookings = db.bookings ++ [nb] ∧
      nb.status = defaultBookingStatus) ∧
    (∀ s : Option String, createBooking db { body with status := s } = createBooking db body) := by
  refine ⟨by simp [createBooking, h, hnc], ?_, fun s => rfl⟩
  exact ⟨{ id := db.nextBookingId, room_id := body.room_id.getD 0,
           user_name := body.user_name.getD "", title := body.title.getD "",
           start_time := body.start_time.getD "", end_time := body.end_time.getD "",
           attendees := body.attendees.getD 0, applicant := body.applicant.getD "",
           whatsapp := body.whatsapp.getD "", description := body.description.getD "",
           purpose := body.title.getD "", status := defaultBookingStatus },
         by simp [createBooking, h, hnc], rfl⟩

/-- C9 witness: a create body carrying status approved is stored and
reported as pending. -/
theorem create_status_always_pending_witness :
    (createBooking dbEmpty bodyStatusTry).1 = CreateBookingResult.created 1 "pending" ∧
    ∃ nb, (createBooking dbEmpty bodyStatusTry).2.bookings = dbEmpty.bookings ++ [nb] ∧
      nb.status = defaultBookingStatus := by
  have h := create_status_always_pending dbEmpty bodyStatusTry (by decide) (by decide)
  exact ⟨h.1, h.2.1⟩

/-- C10: the full-update handler runs the conflict query before the
existence check, so a request for a nonexistent booking id that
conflicts with a stored non-rejected booking answers 409, and a 404
arises only with no conflict and no row of that id. -/
theorem update_conflict_checked_before_404 (db : DB) (id : Nat) (ub : UpdateBody) :
    ((∀ b ∈ db.bookings, b.id ≠ id) →
      (∃ b ∈ db.bookings, b.room_id = ub.room_id ∧ b.status ≠ "rejected" ∧
        strLt b.start_time ub.end_time = true ∧ strLt ub.start_time b.end_time = true) →
      (updateBooking db id ub).1 = UpdateBookingResult.conflict) ∧
    ((updateBooking db id ub).1 = UpdateBookingResult.notFound →
      conflictCountExcl db.bookings id ub.room_id ub.start_time ub.end_time = 0 ∧
      ∀ b ∈ db.bookings, b.id ≠ id) := by
  constructor
  · rintro hnex ⟨b, hb, hroom, hstat, h1, h2⟩
    have hc : 0 < conflictCountExcl db.bookings id ub.room_id ub.start_time ub.end_time :=
      (conflictCountExcl_pos_iff _ _ _ _ _).mpr ⟨b, hb, hroom, hnex b hb, hstat, h1, h2⟩
    simp [updateBooking, hc]
  · intro hnf
    by_cases hc : conflictCountExcl db.bookings id ub.room_id ub.start_time ub.end_time > 0
    · simp [updateBooking, hc] at hnf
    · refine ⟨Nat.eq_zero_of_not_pos hc, ?_⟩
      by_cases hz : ((db.bookings.filter (fun b => b.id == id)).length == 0) = true
      · intro b hb hbid
        have hpos := filter_id_length_pos b hb hbid
        simp only [beq_iff_eq] at hz
        exact hpos hz
      · simp [updateBooking, hc, hz] at hnf

/-- C10 witness: updating the nonexistent booking id 99 to the interval
10:30 to 11:30 of room 1, which conflicts with the stored approved
booking, answers 409 rather than 404. -/
theorem update_conflict_checked_before_404_witness :
    (updateBooking dbOne 99 ubOverlap).1 = UpdateBookingResult.conflict :=
  (update_conflict_checked_before_404 dbOne 99 ubOverlap).1 (by decide) (by decide)

end BookRoom
